import Mathlib

set_option autoImplicit false

/-
Verification of the storage key derivation logic in
packages/metadata/src/decorate/storage/createFunction.ts.

Byte strings are modelled as lists of naturals.  The external collaborators
(the 128-bit xxhash used for the base key and the typed argument encoder
of the registry) are opaque services consumed through narrow interfaces, so
they are modelled as components of an environment structure and the theorems
quantify over them.  Declared hashers are modelled as the byte transforms
they resolve to (the hasher registry maps a declared kind to a transform,
with Identity as the default).
-/

/-- Byte strings: lists of naturals, each byte reduced mod 256 where it matters. -/
abbrev Bytes := List Nat

deriving instance DecidableEq for Except

/-- Minimal little-endian byte representation of a natural number. -/
def natToLEBytesMin (n : Nat) : Bytes :=
  (List.range (Nat.log 256 n + 1)).map fun i => n / 256 ^ i % 256

/-- The SCALE compact encoding of a natural number, as produced by the
external util library: one byte shifted left by two for values up to 63,
two bytes for values up to 2 ^ 14 - 1, four bytes for values up to
2 ^ 30 - 1, and a length byte followed by minimal little-endian bytes
beyond that. -/
def compactToU8a (n : Nat) : Bytes :=
  if n ≤ 63 then [n * 4 % 256]
  else if n ≤ 2 ^ 14 - 1 then
    [(n * 4 + 1) % 256, (n * 4 + 1) / 256 % 256]
  else if n ≤ 2 ^ 30 - 1 then
    [(n * 4 + 2) % 256, (n * 4 + 2) / 256 % 256,
      (n * 4 + 2) / 65536 % 256, (n * 4 + 2) / 16777216 % 256]
  else
    (((natToLEBytesMin n).length - 4) * 4 + 3) % 256 :: natToLEBytesMin n

/-- Little-endian bytes back to a natural number. -/
def leBytesToNat (b : Bytes) : Nat := b.foldr (fun x acc => x % 256 + 256 * acc) 0

/-- Decoding of a SCALE compact length from the head of a byte string;
returns the header width and the decoded value. -/
def compactFromU8a (b : Bytes) : Nat × Nat :=
  let b0 := b.headD 0
  if b0 % 4 = 0 then (1, b0 / 4)
  else if b0 % 4 = 1 then (2, (b0 % 256 + 256 * (b.getD 1 0 % 256)) / 4)
  else if b0 % 4 = 2 then
    (4, (b0 % 256 + 256 * (b.getD 1 0 % 256) + 65536 * (b.getD 2 0 % 256)
      + 16777216 * (b.getD 3 0 % 256)) / 4)
  else (1 + (b0 / 4 + 4), leBytesToNat ((b.drop 1).take (b0 / 4 + 4)))

/-- compactAddLength from the external util library: prepend the compact
encoding of the length of the byte string. -/
def compactAddLength (u8a : Bytes) : Bytes := compactToU8a u8a.length ++ u8a

/-- compactStripLength from the external util library: decode the compact
length header and return the total consumed length with the inner body. -/
def compactStripLength (u8a : Bytes) : Nat × Bytes :=
  let ol := compactFromU8a u8a
  (ol.1 + ol.2, (u8a.drop ol.1).take ol.2)

/-- A caller-supplied argument value (CreateArgType, possibly a tuple for
double maps).  undef models a missing or undefined argument and null models
a null argument; value wraps an opaque payload of type V. -/
inductive SArg (V : Type) where
  | undef
  | null
  | value (v : V)
  | tuple (a b : SArg V)

/-- isUndefined from the external util library. -/
def isUndefined {V : Type} : SArg V → Bool
  | .undef => true
  | _ => false

/-- isNull from the external util library. -/
def isNull {V : Type} : SArg V → Bool
  | .null => true
  | _ => false

/-- The validity test createKeyDoubleMap applies to its arguments: an array
of two non-null, non-undefined entries. -/
def validDoubleMapArgs {V : Type} : SArg V → Bool
  | .tuple a b => !isUndefined a && !isNull a && !isUndefined b && !isNull b
  | _ => false

/-- The shape of a storage item together with its declared key types and the
byte transforms its declared hashers resolve to.  Modelled from the spec:
the hasher registry (getHasher, not under src/) maps a declared hasher kind
to a byte-transform function, so the transforms are carried directly. -/
inductive StorageType where
  | plain
  | map (key : String) (hasher : Bytes → Bytes)
  | doubleMap (key1 key2 : String) (hasher key2Hasher : Bytes → Bytes)

/-- type.isMap of the metadata storage type. -/
def StorageType.isMap : StorageType → Bool
  | .map _ _ => true
  | _ => false

/-- type.isDoubleMap of the metadata storage type. -/
def StorageType.isDoubleMap : StorageType → Bool
  | .doubleMap _ _ _ _ => true
  | _ => false

/-- The slice of StorageEntryMetadataLatest that key derivation reads. -/
structure StorageEntryMeta where
  name : String
  type : StorageType

/-- CreateItemFn: the descriptor passed to createFunction.  The TS fields
named prefix and section are Lean keywords, hence prefixStr and sectionStr. -/
structure CreateItemFn where
  meta : StorageEntryMeta
  method : String
  prefixStr : String
  sectionStr : String

/-- The external collaborators: xxhashAsU8a from the hash library and the
composition registry.createType(type, value).toU8a() of the typed codec. -/
structure Env (V : Type) where
  xxhashAsU8a : String → Nat → Bytes
  createTypeToU8a : String → SArg V → Bytes

/-- createPrefixedKey: the fixed base key of a storage item, the 128-bit
xxhash of the prefix string followed by the 128-bit xxhash of the method. -/
def createPrefixedKey {V : Type} (env : Env V) (itemFn : CreateItemFn) : Bytes :=
  env.xxhashAsU8a itemFn.prefixStr 128 ++ env.xxhashAsU8a itemFn.method 128

/-- The Identity hasher, the registry default when no hasher is declared. -/
def identityHasher : Bytes → Bytes := fun u8a => u8a

/-- getHashers: one hasher for Plain and Map shapes, two for DoubleMap. -/
def getHashers (itemFn : CreateItemFn) : (Bytes → Bytes) × Option (Bytes → Bytes) :=
  match itemFn.meta.type with
  | .doubleMap _ _ hasher key2Hasher => (hasher, some key2Hasher)
  | .map _ hasher => (hasher, none)
  | .plain => (identityHasher, none)

/-- createKeyDoubleMap: checks that the arguments form a pair of non-null,
non-undefined values, that a second hasher is resolvable, then assembles
compactAddLength(basePrefix ++ hasher1(encodedKey1) ++ hasher2(encodedKey2)). -/
def createKeyDoubleMap {V : Type} (env : Env V) (itemFn : CreateItemFn)
    (args : SArg V) (hasher1 : Bytes → Bytes) (hasher2? : Option (Bytes → Bytes)) :
    Except String Bytes :=
  match args, hasher2? with
  | .tuple key1 key2, some hasher2 =>
    if !isUndefined key1 && !isNull key1 && !isUndefined key2 && !isNull key2 then
      match itemFn.meta.type with
      | .doubleMap k1 k2 _ _ =>
        .ok (compactAddLength (createPrefixedKey env itemFn
          ++ hasher1 (env.createTypeToU8a k1 key1)
          ++ hasher2 (env.createTypeToU8a k2 key2)))
      | _ => .error "asDoubleMap conversion error"
    else .error (itemFn.meta.name ++ " is a DoubleMap and requires two arguments")
  | .tuple key1 key2, none =>
    if !isUndefined key1 && !isNull key1 && !isUndefined key2 && !isNull key2 then
      .error "2 hashing functions should be defined for DoubleMaps"
    else .error (itemFn.meta.name ++ " is a DoubleMap and requires two arguments")
  | _, _ => .error (itemFn.meta.name ++ " is a DoubleMap and requires two arguments")

/-- createKey: for a Map type, checks the argument is non-null and
non-undefined, encodes it and hashes the encoding if it is non-empty; for
any other type the body is just the base key.  The result is always
length-prefixed. -/
def createKey {V : Type} (env : Env V) (itemFn : CreateItemFn) (arg : SArg V)
    (hasher : Bytes → Bytes) : Except String Bytes :=
  match itemFn.meta.type with
  | .map key _ =>
    if !isUndefined arg && !isNull arg then
      .ok (compactAddLength (createPrefixedKey env itemFn
        ++ (if (env.createTypeToU8a key arg).length != 0
            then hasher (env.createTypeToU8a key arg) else [])))
    else .error (itemFn.meta.name ++ " is a Map and requires one argument")
  | _ => .ok (compactAddLength (createPrefixedKey env itemFn ++ []))

/-- Modelled from the spec: StorageKey (declared in
src/packages/types/src/primitive/types.ts as a Uint8Array and Codec, with
the implementing class not under src/).  It wraps the raw key body: as a
byte array it is the body, and its codec encoding carries the compact
length header, since an EncodedKey is always produced with a SCALE style
compact length header over the full body. -/
structure StorageKeyM where
  body : Bytes
deriving DecidableEq

/-- The codec encoding of a StorageKey: the body with its compact length header. -/
def StorageKeyM.toU8a (k : StorageKeyM) : Bytes := compactAddLength k.body

/-- The inner closure handed to extendHeadMeta by extendPrefixedMap: rejects
filter arguments on anything but double maps, and returns the base key
extended by the hashed encoded first key when one is supplied. -/
def iterFn {V : Type} (env : Env V) (itemFn : CreateItemFn) (arg : SArg V) :
    Except String Bytes :=
  if !((itemFn.meta.type).isDoubleMap || isUndefined arg) then
    .error "Filtering arguments for keys/entries are only valid on double maps"
  else
    match itemFn.meta.type with
    | .doubleMap k1 _ hasher _ =>
      if !isUndefined arg && !isNull arg then
        .ok (createPrefixedKey env itemFn ++ hasher (env.createTypeToU8a k1 arg))
      else .ok (createPrefixedKey env itemFn)
    | _ => .ok (createPrefixedKey env itemFn)

/-- The wrapper returned by extendHeadMeta: a non-null, non-undefined
argument is forwarded to the inner closure, anything else yields the
unfiltered head key that was precomputed from a call without arguments. -/
def iterKeyFn {V : Type} (env : Env V) (itemFn : CreateItemFn) (arg : SArg V) :
    Except String StorageKeyM :=
  if !isUndefined arg && !isNull arg then (iterFn env itemFn arg).map StorageKeyM.mk
  else (iterFn env itemFn .undef).map StorageKeyM.mk

/-- stringLowerFirst from the external util library: the first character
lowercased, the rest unchanged. -/
def stringLowerFirst (s : String) : String :=
  match s.data with
  | [] => ""
  | c :: cs => String.mk (c.toLower :: cs)

/-- CreateItemOptions: an optional pre-built raw key and the flag that skips
hashing.  The raw key is modelled directly as bytes. -/
structure CreateItemOptions where
  key : Option Bytes
  skipHashing : Bool

/-- u8aToU8a applied to the optional raw key: missing input becomes empty bytes. -/
def u8aToU8a (v : Option Bytes) : Bytes :=
  match v with
  | none => []
  | some b => b

/-- The callable body built inside createFunction: double maps always go
through createKeyDoubleMap; otherwise the raw override applies when hashing
is skipped, and createKey runs in the normal case. -/
def storageFnCall {V : Type} (env : Env V) (itemFn : CreateItemFn)
    (options : CreateItemOptions) (arg : SArg V) : Except String Bytes :=
  if (itemFn.meta.type).isDoubleMap then
    createKeyDoubleMap env itemFn arg (getHashers itemFn).1 (getHashers itemFn).2
  else if options.skipHashing then
    .ok (compactAddLength (u8aToU8a options.key))
  else
    createKey env itemFn arg (getHashers itemFn).1

/-- The iterKey field attached by extendPrefixedMap, present exactly for Map
and DoubleMap shapes. -/
def storageFnIterKey {V : Type} (env : Env V) (itemFn : CreateItemFn) :
    Option (SArg V → Except String StorageKeyM) :=
  if (itemFn.meta.type).isMap || (itemFn.meta.type).isDoubleMap then
    some (iterKeyFn env itemFn)
  else none

/-- The keyPrefix combinator: use iterKey when it exists (its byte-array
identity is the unprefixed body), otherwise strip the compact length header
from a full key computed without arguments. -/
def storageFnKeyPrefix {V : Type} (env : Env V) (itemFn : CreateItemFn)
    (options : CreateItemOptions) (arg : SArg V) : Except String Bytes :=
  match storageFnIterKey env itemFn with
  | some ik => (ik arg).map StorageKeyM.body
  | none => (storageFnCall env itemFn options .undef).map fun k => (compactStripLength k).2

/-- The composed storage entry: the callable plus the fields expandWithMeta
and extendPrefixedMap attach to it. -/
structure StorageEntryM (V : Type) where
  call : SArg V → Except String Bytes
  iterKey : Option (SArg V → Except String StorageKeyM)
  keyPrefix : SArg V → Except String Bytes
  meta : StorageEntryMeta
  method : String
  prefixStr : String
  sectionStr : String

/-- createFunction: builds the storage entry for one descriptor.  The
exposed method field is the metadata method with its first character
lowercased; the prefix and section strings are exposed unchanged. -/
def createFunction {V : Type} (env : Env V) (itemFn : CreateItemFn)
    (options : CreateItemOptions) : StorageEntryM V :=
  { call := storageFnCall env itemFn options
    iterKey := storageFnIterKey env itemFn
    keyPrefix := storageFnKeyPrefix env itemFn options
    meta := itemFn.meta
    method := stringLowerFirst itemFn.method
    prefixStr := itemFn.prefixStr
    sectionStr := itemFn.sectionStr }

/-- Is an Except result a success. -/
def exceptIsOk {ε α : Type} : Except ε α → Bool
  | .ok _ => true
  | .error _ => false

/- Concrete instances used to evaluate the development on explicit inputs.
The payload type is Nat; the test encoder encodes a value as its single
byte and anything else as empty bytes. -/

/-- A test encoder for payload type Nat. -/
def encodeW : SArg Nat → Bytes
  | .value v => [v % 256]
  | _ => []

/-- A test hash: one byte, the string length. -/
def xxhW : String → Nat → Bytes := fun s _ => [s.length % 256]

/-- A test hash with 16-byte output. -/
def xxh16 : String → Nat → Bytes := fun s _ => List.replicate 16 (s.length % 256)

/-- A test hash separating the strings System and system. -/
def xxhC : String → Nat → Bytes := fun s _ => [if s = "System" then 0 else 1]

/-- A test hasher transform that prepends a marker byte. -/
def consHasher : Bytes → Bytes := fun b => 7 :: b

/-- Test environment with single-byte digests. -/
def envW : Env Nat := { xxhashAsU8a := xxhW, createTypeToU8a := fun _ a => encodeW a }

/-- Test environment with 16-byte digests. -/
def env16 : Env Nat := { xxhashAsU8a := xxh16, createTypeToU8a := fun _ a => encodeW a }

/-- Test environment whose hash separates System from system. -/
def envC : Env Nat := { xxhashAsU8a := xxhC, createTypeToU8a := fun _ a => encodeW a }

/-- A Plain item. -/
def itemPlainW : CreateItemFn :=
  { meta := { name := "Now", type := .plain }
    method := "Now"
    prefixStr := "Timestamp"
    sectionStr := "timestamp" }

/-- A Map item. -/
def itemMapW : CreateItemFn :=
  { meta := { name := "Account", type := .map "AccountId" consHasher }
    method := "Account"
    prefixStr := "System"
    sectionStr := "system" }

/-- A Plain item sharing method and prefix strings with itemMapW. -/
def itemMapW2 : CreateItemFn :=
  { meta := { name := "AccountHead", type := .plain }
    method := "Account"
    prefixStr := "System"
    sectionStr := "sys" }

/-- A DoubleMap item. -/
def itemDmW : CreateItemFn :=
  { meta := { name := "Bonded", type := .doubleMap "K1" "K2" consHasher identityHasher }
    method := "Bonded"
    prefixStr := "Staking"
    sectionStr := "staking" }

/-- Default options: no raw key, hashing not skipped. -/
def optsW : CreateItemOptions := { key := none, skipHashing := false }

/-- Raw-override options: a pre-built raw key with hashing skipped. -/
def optsRaw : CreateItemOptions := { key := some [9], skipHashing := true }

/-- Claim C1 (counterexample): the base key is not the hash of the exposed
section field concatenated with the hash of the method: the code hashes the
prefix string, and for an item whose section is system while its prefix is
System the two disagree. -/
theorem c1_basePrefix_cex :
    createPrefixedKey envC itemMapW ≠
      envC.xxhashAsU8a itemMapW.sectionStr 128 ++ envC.xxhashAsU8a itemMapW.method 128 := by
  decide

/-- Claim C1 (amended): the fixed base key is hash128(prefix) ++ hash128(method)
computed with the 128-bit hash, where prefix is the descriptor prefix string
(which can differ from the exposed section field); it is independent of the
declared hasher and of the shape (any descriptor agreeing on method and
prefix strings yields the same base key), and it is 32 bytes long whenever
the 128-bit digests are 16 bytes long. -/
theorem c1_basePrefix {V : Type} (env : Env V) (itemFn itemFn' : CreateItemFn)
    (hm : itemFn'.method = itemFn.method) (hp : itemFn'.prefixStr = itemFn.prefixStr)
    (hl1 : (env.xxhashAsU8a itemFn.prefixStr 128).length = 16)
    (hl2 : (env.xxhashAsU8a itemFn.method 128).length = 16) :
    createPrefixedKey env itemFn =
        env.xxhashAsU8a itemFn.prefixStr 128 ++ env.xxhashAsU8a itemFn.method 128 ∧
      createPrefixedKey env itemFn' = createPrefixedKey env itemFn ∧
      (createPrefixedKey env itemFn).length = 32 := by
  refine ⟨rfl, ?_, ?_⟩
  · simp [createPrefixedKey, hm, hp]
  · simp [createPrefixedKey, hl1, hl2]

/-- Claim C1 (witness): the amended statement evaluated on a Map item and a
Plain item sharing its method and prefix strings, under 16-byte digests. -/
theorem c1_basePrefix_witness :
    itemMapW2.method = itemMapW.method ∧ itemMapW2.prefixStr = itemMapW.prefixStr ∧
      (env16.xxhashAsU8a itemMapW.prefixStr 128).length = 16 ∧
      (env16.xxhashAsU8a itemMapW.method 128).length = 16 ∧
      (createPrefixedKey env16 itemMapW =
          env16.xxhashAsU8a itemMapW.prefixStr 128 ++ env16.xxhashAsU8a itemMapW.method 128 ∧
        createPrefixedKey env16 itemMapW2 = createPrefixedKey env16 itemMapW ∧
        (createPrefixedKey env16 itemMapW).length = 32) :=
  ⟨rfl, rfl, by decide, by decide,
    c1_basePrefix env16 itemMapW itemMapW2 rfl rfl (by decide) (by decide)⟩

/-- Claim C2: for a Map descriptor and any non-null, non-undefined argument,
without the raw override, invocation returns the compact length header over
a body that is the base key followed by the hashed encoded argument, the
hash being dropped when the encoding is empty. -/
theorem c2_mapComputeKey {V : Type} (env : Env V) (itemFn : CreateItemFn)
    (options : CreateItemOptions) (k : String) (h : Bytes → Bytes) (arg : SArg V)
    (ht : itemFn.meta.type = .map k h) (hs : options.skipHashing = false)
    (hu : isUndefined arg = false) (hn : isNull arg = false) :
    (createFunction env itemFn options).call arg =
      .ok (compactAddLength (createPrefixedKey env itemFn ++
        (if (env.createTypeToU8a k arg).length != 0
         then h (env.createTypeToU8a k arg) else []))) := by
  simp [createFunction, storageFnCall, createKey, getHashers, ht, hs, hu, hn,
    StorageType.isDoubleMap]

/-- Claim C2 (witness): the Map item evaluated at the payload value 5, whose
encoding is the non-empty byte string consisting of the byte 5. -/
theorem c2_mapComputeKey_witness :
    itemMapW.meta.type = .map "AccountId" consHasher ∧ optsW.skipHashing = false ∧
      isUndefined (SArg.value (5 : Nat)) = false ∧ isNull (SArg.value (5 : Nat)) = false ∧
      (createFunction envW itemMapW optsW).call (.value 5) =
        .ok (compactAddLength (createPrefixedKey envW itemMapW ++
          (if (envW.createTypeToU8a "AccountId" (.value 5)).length != 0
           then consHasher (envW.createTypeToU8a "AccountId" (.value 5)) else []))) :=
  ⟨rfl, rfl, rfl, rfl,
    c2_mapComputeKey envW itemMapW optsW "AccountId" consHasher (.value 5) rfl rfl rfl rfl⟩

/-- Claim C3 (counterexample): invoking a Plain item with an argument does
not fail: the argument is ignored and the plain key is returned. -/
theorem c3_arity_cex :
    exceptIsOk ((createFunction envW itemPlainW optsW).call (.value 5)) = true := by
  decide

/-- Claim C3 (amended): invoking a Plain item with an argument succeeds, the
argument being ignored; invoking a Map item with a null or undefined (or no)
argument fails with a usage error before any bytes are returned; invoking a
DoubleMap item with anything but a pair of two non-null, non-undefined
arguments fails with a usage error before any bytes are returned. -/
theorem c3_arity {V : Type} (env : Env V) (itemP itemM itemD : CreateItemFn)
    (options : CreateItemOptions) (arg argM args : SArg V)
    (k k1 k2 : String) (h h1 h2 : Bytes → Bytes)
    (hs : options.skipHashing = false)
    (htP : itemP.meta.type = .plain)
    (htM : itemM.meta.type = .map k h)
    (htD : itemD.meta.type = .doubleMap k1 k2 h1 h2)
    (haM : (isUndefined argM || isNull argM) = true)
    (haD : validDoubleMapArgs args = false) :
    (createFunction env itemP options).call arg =
        .ok (compactAddLength (createPrefixedKey env itemP ++ [])) ∧
      (createFunction env itemM options).call argM =
        .error (itemM.meta.name ++ " is a Map and requires one argument") ∧
      (createFunction env itemD options).call args =
        .error (itemD.meta.name ++ " is a DoubleMap and requires two arguments") := by
  refine ⟨?_, ?_, ?_⟩
  · simp [createFunction, storageFnCall, createKey, htP, hs, StorageType.isDoubleMap]
  · rcases Bool.or_eq_true_iff.mp haM with hu | hn
    · simp [createFunction, storageFnCall, createKey, htM, hs, hu, StorageType.isDoubleMap]
    · simp [createFunction, storageFnCall, createKey, htM, hs, hn, StorageType.isDoubleMap]
  · cases args with
    | tuple a b =>
      simp only [validDoubleMapArgs] at haD
      simp [createFunction, storageFnCall, createKeyDoubleMap, getHashers, htD, haD,
        StorageType.isDoubleMap]
    | undef =>
      simp [createFunction, storageFnCall, createKeyDoubleMap, getHashers, htD,
        StorageType.isDoubleMap]
    | null =>
      simp [createFunction, storageFnCall, createKeyDoubleMap, getHashers, htD,
        StorageType.isDoubleMap]
    | value v =>
      simp [createFunction, storageFnCall, createKeyDoubleMap, getHashers, htD,
        StorageType.isDoubleMap]

/-- Claim C3 (witness): the amended statement evaluated on the three test
items, with an undefined Map argument and a single scalar DoubleMap argument. -/
theorem c3_arity_witness :
    optsW.skipHashing = false ∧ itemPlainW.meta.type = .plain ∧
      itemMapW.meta.type = .map "AccountId" consHasher ∧
      itemDmW.meta.type = .doubleMap "K1" "K2" consHasher identityHasher ∧
      (isUndefined (SArg.undef : SArg Nat) || isNull (SArg.undef : SArg Nat)) = true ∧
      validDoubleMapArgs (SArg.value (3 : Nat)) = false ∧
      ((createFunction envW itemPlainW optsW).call (.value 5) =
          .ok (compactAddLength (createPrefixedKey envW itemPlainW ++ [])) ∧
        (createFunction envW itemMapW optsW).call .undef =
          .error (itemMapW.meta.name ++ " is a Map and requires one argument") ∧
        (createFunction envW itemDmW optsW).call (.value 3) =
          .error (itemDmW.meta.name ++ " is a DoubleMap and requires two arguments")) :=
  ⟨rfl, rfl, rfl, rfl, rfl, rfl,
    c3_arity envW itemPlainW itemMapW itemDmW optsW (.value 5) .undef (.value 3)
      "AccountId" "K1" "K2" consHasher consHasher identityHasher rfl rfl rfl rfl rfl rfl⟩

/-- Claim C4 (counterexample): for a DoubleMap descriptor the raw override
is ignored: with hashing skipped and a pre-built raw key supplied,
invocation still performs the double-map derivation and the result differs
from the length-prefixed raw bytes. -/
theorem c4_rawOverride_cex :
    (createFunction envW itemDmW optsRaw).call (.tuple (.value 1) (.value 2)) ≠
      .ok (compactAddLength (u8aToU8a optsRaw.key)) := by
  decide

/-- Claim C4 (amended): when the caller supplies a pre-built raw key with
hashing skipped, invocation returns the compact length header over the raw
bytes verbatim, bypassing typed encoding and hashing, for every descriptor
whose shape is not DoubleMap; a DoubleMap descriptor ignores the override
and performs the normal double-map derivation. -/
theorem c4_rawOverride {V : Type} (env : Env V) (itemFn itemDm : CreateItemFn)
    (options : CreateItemOptions) (arg argDm : SArg V)
    (hs : options.skipHashing = true)
    (hnd : (itemFn.meta.type).isDoubleMap = false)
    (hd : (itemDm.meta.type).isDoubleMap = true) :
    (createFunction env itemFn options).call arg =
        .ok (compactAddLength (u8aToU8a options.key)) ∧
      (createFunction env itemDm options).call argDm =
        createKeyDoubleMap env itemDm argDm (getHashers itemDm).1 (getHashers itemDm).2 := by
  constructor
  · simp [createFunction, storageFnCall, hnd, hs]
  · simp [createFunction, storageFnCall, hd]

/-- Claim C4 (witness): the amended statement evaluated on the Map item and
the DoubleMap item under the raw-override options. -/
theorem c4_rawOverride_witness :
    optsRaw.skipHashing = true ∧ (itemMapW.meta.type).isDoubleMap = false ∧
      (itemDmW.meta.type).isDoubleMap = true ∧
      ((createFunction envW itemMapW optsRaw).call (.value 5) =
          .ok (compactAddLength (u8aToU8a optsRaw.key)) ∧
        (createFunction envW itemDmW optsRaw).call (.tuple (.value 1) (.value 2)) =
          createKeyDoubleMap envW itemDmW (.tuple (.value 1) (.value 2))
            (getHashers itemDmW).1 (getHashers itemDmW).2) :=
  ⟨rfl, rfl, rfl,
    c4_rawOverride envW itemMapW itemDmW optsRaw (.value 5) (.tuple (.value 1) (.value 2))
      rfl rfl rfl⟩

/-- The head key produced for the DoubleMap counterexample below: base key
of itemDmW followed by the hashed encoding of the first key. -/
def headKeyC : StorageKeyM :=
  ⟨createPrefixedKey envW itemDmW ++ consHasher (envW.createTypeToU8a "K1" (.value 1))⟩

/-- The full key produced for the DoubleMap counterexample below. -/
def fullKeyC : Bytes :=
  compactAddLength (createPrefixedKey envW itemDmW
    ++ consHasher (envW.createTypeToU8a "K1" (.value 1))
    ++ identityHasher (envW.createTypeToU8a "K2" (.value 2)))

/-- Claim C5 (counterexample): with keys taken as encoded keys (always
carrying their compact length header, as the spec defines EncodedKey), the
iteration prefix computed from the first key is not a byte-prefix of the
full key derived from the pair: the two length headers differ; the raw head
body is not a byte-prefix of the length-prefixed full key either. -/
theorem c5_iterPrefix_cex :
    iterKeyFn envW itemDmW (.value 1) = .ok headKeyC ∧
      (createFunction envW itemDmW optsW).call (.tuple (.value 1) (.value 2)) = .ok fullKeyC ∧
      ¬ List.IsPrefix headKeyC.toU8a fullKeyC ∧
      ¬ List.IsPrefix headKeyC.body fullKeyC := by
  refine ⟨by decide, by decide, ?_, ?_⟩ <;> decide

/-- Claim C5 (amended): for every DoubleMap descriptor and every pair of
non-null, non-undefined keys, the body of the iteration prefix computed from
the first key (its bytes without the compact length header) is a byte-prefix
of the body of the full key derived from the pair (the full key with its
compact length header stripped). -/
theorem c5_iterPrefix {V : Type} (env : Env V) (itemFn : CreateItemFn)
    (options : CreateItemOptions) (k1 k2 : String) (h1 h2 : Bytes → Bytes) (a b : SArg V)
    (ht : itemFn.meta.type = .doubleMap k1 k2 h1 h2)
    (hu1 : isUndefined a = false) (hn1 : isNull a = false)
    (hu2 : isUndefined b = false) (hn2 : isNull b = false) :
    iterKeyFn env itemFn a =
        .ok ⟨createPrefixedKey env itemFn ++ h1 (env.createTypeToU8a k1 a)⟩ ∧
      (createFunction env itemFn options).call (.tuple a b) =
        .ok (compactAddLength (createPrefixedKey env itemFn
          ++ h1 (env.createTypeToU8a k1 a) ++ h2 (env.createTypeToU8a k2 b))) ∧
      List.IsPrefix (createPrefixedKey env itemFn ++ h1 (env.createTypeToU8a k1 a))
        (createPrefixedKey env itemFn ++ h1 (env.createTypeToU8a k1 a)
          ++ h2 (env.createTypeToU8a k2 b)) := by
  refine ⟨?_, ?_, List.prefix_append _ _⟩
  · simp [iterKeyFn, iterFn, ht, hu1, hn1, StorageType.isDoubleMap, Except.map]
  · simp [createFunction, storageFnCall, createKeyDoubleMap, getHashers, ht,
      hu1, hn1, hu2, hn2, StorageType.isDoubleMap]

/-- Claim C5 (witness): the amended statement evaluated on the DoubleMap
item at the pair of payload values 1 and 2. -/
theorem c5_iterPrefix_witness :
    itemDmW.meta.type = .doubleMap "K1" "K2" consHasher identityHasher ∧
      isUndefined (SArg.value (1 : Nat)) = false ∧ isNull (SArg.value (1 : Nat)) = false ∧
      isUndefined (SArg.value (2 : Nat)) = false ∧ isNull (SArg.value (2 : Nat)) = false ∧
      (iterKeyFn envW itemDmW (.value 1) =
          .ok ⟨createPrefixedKey envW itemDmW ++ consHasher (envW.createTypeToU8a "K1" (.value 1))⟩ ∧
        (createFunction envW itemDmW optsW).call (.tuple (.value 1) (.value 2)) =
          .ok (compactAddLength (createPrefixedKey envW itemDmW
            ++ consHasher (envW.createTypeToU8a "K1" (.value 1))
            ++ identityHasher (envW.createTypeToU8a "K2" (.value 2)))) ∧
        List.IsPrefix (createPrefixedKey envW itemDmW ++ consHasher (envW.createTypeToU8a "K1" (.value 1)))
          (createPrefixedKey envW itemDmW ++ consHasher (envW.createTypeToU8a "K1" (.value 1))
            ++ identityHasher (envW.createTypeToU8a "K2" (.value 2)))) :=
  ⟨rfl, rfl, rfl, rfl, rfl,
    c5_iterPrefix envW itemDmW optsW "K1" "K2" consHasher identityHasher
      (.value 1) (.value 2) rfl rfl rfl rfl rfl⟩

/-- Claim C6: for a DoubleMap descriptor and a non-null, non-undefined first
key, the entry exposes iterKey, which returns the key whose body is the base
key followed by the first hasher applied to the encoded first key; its codec
encoding is length-prefixed like a full key, while keyPrefix yields the
unprefixed body bytes. -/
theorem c6_iterKeyDoubleMap {V : Type} (env : Env V) (itemFn : CreateItemFn)
    (options : CreateItemOptions) (k1 k2 : String) (h1 h2 : Bytes → Bytes) (a : SArg V)
    (ht : itemFn.meta.type = .doubleMap k1 k2 h1 h2)
    (hu : isUndefined a = false) (hn : isNull a = false) :
    (createFunction env itemFn options).iterKey = some (iterKeyFn env itemFn) ∧
      iterKeyFn env itemFn a =
        .ok ⟨createPrefixedKey env itemFn ++ h1 (env.createTypeToU8a k1 a)⟩ ∧
      StorageKeyM.toU8a ⟨createPrefixedKey env itemFn ++ h1 (env.createTypeToU8a k1 a)⟩ =
        compactAddLength (createPrefixedKey env itemFn ++ h1 (env.createTypeToU8a k1 a)) ∧
      (createFunction env itemFn options).keyPrefix a =
        .ok (createPrefixedKey env itemFn ++ h1 (env.createTypeToU8a k1 a)) := by
  refine ⟨?_, ?_, rfl, ?_⟩
  · simp [createFunction, storageFnIterKey, ht, StorageType.isDoubleMap]
  · simp [iterKeyFn, iterFn, ht, hu, hn, StorageType.isDoubleMap, Except.map]
  · simp [createFunction, storageFnKeyPrefix, storageFnIterKey, iterKeyFn, iterFn, ht,
      hu, hn, StorageType.isDoubleMap, Except.map]

/-- Claim C6 (witness): the DoubleMap item evaluated at the first key 1. -/
theorem c6_iterKeyDoubleMap_witness :
    itemDmW.meta.type = .doubleMap "K1" "K2" consHasher identityHasher ∧
      isUndefined (SArg.value (1 : Nat)) = false ∧ isNull (SArg.value (1 : Nat)) = false ∧
      ((createFunction envW itemDmW optsW).iterKey = some (iterKeyFn envW itemDmW) ∧
        iterKeyFn envW itemDmW (.value 1) =
          .ok ⟨createPrefixedKey envW itemDmW ++ consHasher (envW.createTypeToU8a "K1" (.value 1))⟩ ∧
        StorageKeyM.toU8a ⟨createPrefixedKey envW itemDmW ++ consHasher (envW.createTypeToU8a "K1" (.value 1))⟩ =
          compactAddLength (createPrefixedKey envW itemDmW ++ consHasher (envW.createTypeToU8a "K1" (.value 1))) ∧
        (createFunction envW itemDmW optsW).keyPrefix (.value 1) =
          .ok (createPrefixedKey envW itemDmW ++ consHasher (envW.createTypeToU8a "K1" (.value 1)))) :=
  ⟨rfl, rfl, rfl,
    c6_iterKeyDoubleMap envW itemDmW optsW "K1" "K2" consHasher identityHasher
      (.value 1) rfl rfl rfl⟩

/-- Claim C7: for a Map descriptor, supplying a non-null, non-undefined
filter key to iterKey fails immediately with a usage error; no key bytes
are produced. -/
theorem c7_mapIterKeyFilter {V : Type} (env : Env V) (itemFn : CreateItemFn)
    (options : CreateItemOptions) (k : String) (h : Bytes → Bytes) (arg : SArg V)
    (ht : itemFn.meta.type = .map k h)
    (hu : isUndefined arg = false) (hn : isNull arg = false) :
    (createFunction env itemFn options).iterKey = some (iterKeyFn env itemFn) ∧
      iterKeyFn env itemFn arg =
        .error "Filtering arguments for keys/entries are only valid on double maps" := by
  constructor
  · simp [createFunction, storageFnIterKey, ht, StorageType.isMap]
  · simp [iterKeyFn, iterFn, ht, hu, hn, StorageType.isDoubleMap, Except.map]

/-- Claim C7 (witness): the Map item with the filter key 3. -/
theorem c7_mapIterKeyFilter_witness :
    itemMapW.meta.type = .map "AccountId" consHasher ∧
      isUndefined (SArg.value (3 : Nat)) = false ∧ isNull (SArg.value (3 : Nat)) = false ∧
      ((createFunction envW itemMapW optsW).iterKey = some (iterKeyFn envW itemMapW) ∧
        iterKeyFn envW itemMapW (.value 3) =
          .error "Filtering arguments for keys/entries are only valid on double maps") :=
  ⟨rfl, rfl, rfl,
    c7_mapIterKeyFilter envW itemMapW optsW "AccountId" consHasher (.value 3) rfl rfl rfl⟩

/-- Claim C8: for a Plain descriptor without the raw override, invocation
with any argument succeeds, returns the length-prefixed base key, and is
byte-identical to invocation with no argument: the argument is ignored. -/
theorem c8_plainIgnoresArg {V : Type} (env : Env V) (itemFn : CreateItemFn)
    (options : CreateItemOptions) (arg : SArg V)
    (ht : itemFn.meta.type = .plain) (hs : options.skipHashing = false) :
    (createFunction env itemFn options).call arg =
        .ok (compactAddLength (createPrefixedKey env itemFn)) ∧
      (createFunction env itemFn options).call arg =
        (createFunction env itemFn options).call .undef := by
  constructor
  · simp [createFunction, storageFnCall, createKey, ht, hs, StorageType.isDoubleMap]
  · simp [createFunction, storageFnCall, createKey, ht, hs, StorageType.isDoubleMap]

/-- Claim C8 (witness): the Plain item invoked with the argument 4. -/
theorem c8_plainIgnoresArg_witness :
    itemPlainW.meta.type = .plain ∧ optsW.skipHashing = false ∧
      ((createFunction envW itemPlainW optsW).call (.value 4) =
          .ok (compactAddLength (createPrefixedKey envW itemPlainW)) ∧
        (createFunction envW itemPlainW optsW).call (.value 4) =
          (createFunction envW itemPlainW optsW).call .undef) :=
  ⟨rfl, rfl, c8_plainIgnoresArg envW itemPlainW optsW (.value 4) rfl rfl⟩

/-- Claim C9: for a Map or DoubleMap descriptor, calling iterKey with a null
or undefined (or no) argument raises no error and returns the unfiltered
base-prefix key, the same value in all such calls, including the null filter
key on a Map shape. -/
theorem c9_iterKeyNullAccepted {V : Type} (env : Env V) (itemFn : CreateItemFn)
    (options : CreateItemOptions) (arg : SArg V)
    (ht : ((itemFn.meta.type).isMap || (itemFn.meta.type).isDoubleMap) = true)
    (ha : (isUndefined arg || isNull arg) = true) :
    (createFunction env itemFn options).iterKey = some (iterKeyFn env itemFn) ∧
      iterKeyFn env itemFn arg = .ok ⟨createPrefixedKey env itemFn⟩ := by
  constructor
  · simp [createFunction, storageFnIterKey, ht]
  · have hwrap : iterKeyFn env itemFn arg = (iterFn env itemFn .undef).map StorageKeyM.mk := by
      rcases Bool.or_eq_true_iff.mp ha with hu | hn
      · simp [iterKeyFn, hu]
      · simp [iterKeyFn, hn]
    rw [hwrap]
    cases hty : itemFn.meta.type with
    | plain => rw [hty] at ht; simp [StorageType.isMap, StorageType.isDoubleMap] at ht
    | map k h => simp [iterFn, hty, StorageType.isDoubleMap, isUndefined, Except.map]
    | doubleMap k1 k2 h1 h2 =>
      simp [iterFn, hty, StorageType.isDoubleMap, isUndefined, isNull, Except.map]

/-- Claim C9 (witness): the Map item called with a null filter key. -/
theorem c9_iterKeyNullAccepted_witness :
    ((itemMapW.meta.type).isMap || (itemMapW.meta.type).isDoubleMap) = true ∧
      (isUndefined (SArg.null : SArg Nat) || isNull (SArg.null : SArg Nat)) = true ∧
      ((createFunction envW itemMapW optsW).iterKey = some (iterKeyFn envW itemMapW) ∧
        iterKeyFn envW itemMapW .null = .ok ⟨createPrefixedKey envW itemMapW⟩) :=
  ⟨rfl, rfl, c9_iterKeyNullAccepted envW itemMapW optsW .null rfl rfl⟩

/-- Claim C10: the exposed method field of a created entry is the metadata
method name with its first character lowercased, while the base key hashes
the original-cased method string; on an item whose method starts with an
uppercase letter the exposed field differs from the hashed string. -/
theorem c10_methodLowercased :
    (∀ (V : Type) (env : Env V) (itemFn : CreateItemFn) (options : CreateItemOptions),
        (createFunction env itemFn options).method = stringLowerFirst itemFn.method ∧
          createPrefixedKey env itemFn =
            env.xxhashAsU8a itemFn.prefixStr 128 ++ env.xxhashAsU8a itemFn.method 128) ∧
      (createFunction envW itemMapW optsW).method ≠ itemMapW.method := by
  constructor
  · intro V env itemFn options
    exact ⟨rfl, rfl⟩
  · decide
